import Mathlib

/-!
Shallow embedding of `src/mcp-servers/meta-whatsapp/server.py` (the SMate
Meta WhatsApp MCP server) and proofs about its tool-dispatch and
payload-translation layer.

JSON documents are modelled by the inductive type `Json`; Python runtime
exceptions raised by dictionary/list access are modelled by `PyErr`, and
fallible Python code is embedded in the `Except PyErr` monad.  The
network itself is outside the program: a remote response is an input
(`resp : Json`) to the formatter functions, and an outbound HTTP request
is a value of the record `HttpRequest` built by `make_request`.
-/

/-- JSON documents, as parsed from the remote API (`response.json()`) and as
built for outbound request bodies and query-parameter dictionaries.
Numbers are modelled as integers; the program only ever builds the
integer literal `50`. -/
inductive Json where
  | null : Json
  | bool : Bool → Json
  | num : Int → Json
  | str : String → Json
  | arr : List Json → Json
  | obj : List (String × Json) → Json

mutual
/-- Structural boolean equality on JSON documents. -/
def Json.beq : Json → Json → Bool
  | .null, .null => true
  | .bool a, .bool b => a == b
  | .num a, .num b => a == b
  | .str a, .str b => a == b
  | .arr xs, .arr ys => beqJList xs ys
  | .obj xs, .obj ys => beqJObj xs ys
  | _, _ => false

/-- Elementwise boolean equality on JSON arrays. -/
def beqJList : List Json → List Json → Bool
  | [], [] => true
  | x :: xs, y :: ys => Json.beq x y && beqJList xs ys
  | _, _ => false

/-- Memberwise boolean equality on JSON objects. -/
def beqJObj : List (String × Json) → List (String × Json) → Bool
  | [], [] => true
  | (ka, va) :: ps, (kb, vb) :: qs => ka == kb && Json.beq va vb && beqJObj ps qs
  | _, _ => false
end

mutual
/-- The boolean equality is reflexive. -/
theorem Json.beq_refl : ∀ a : Json, Json.beq a a = true
  | .null => rfl
  | .bool b => by simp [Json.beq]
  | .num n => by simp [Json.beq]
  | .str s => by simp [Json.beq]
  | .arr xs =>
    have h := beqJList_refl xs
    by simpa [Json.beq] using h
  | .obj kvs =>
    have h := beqJObj_refl kvs
    by simpa [Json.beq] using h

/-- Reflexivity for the array case. -/
theorem beqJList_refl : ∀ xs : List Json, beqJList xs xs = true
  | [] => rfl
  | x :: xs =>
    have h1 := Json.beq_refl x
    have h2 := beqJList_refl xs
    by simp [beqJList, h1, h2]

/-- Reflexivity for the object case. -/
theorem beqJObj_refl : ∀ xs : List (String × Json), beqJObj xs xs = true
  | [] => rfl
  | (k, v) :: xs =>
    have h1 := Json.beq_refl v
    have h2 := beqJObj_refl xs
    by simp [beqJObj, h1, h2]
end

mutual
/-- The boolean equality is sound for propositional equality. -/
theorem Json.eq_of_beq : ∀ a b : Json, Json.beq a b = true → a = b
  | .null, .null, _ => rfl
  | .bool x, .bool y, h => congrArg Json.bool (by simpa [Json.beq] using h)
  | .num x, .num y, h => congrArg Json.num (by simpa [Json.beq] using h)
  | .str x, .str y, h => congrArg Json.str (by simpa [Json.beq] using h)
  | .arr xs, .arr ys, h =>
    have e := eqJList_of_beq xs ys (by simpa [Json.beq] using h)
    congrArg Json.arr e
  | .obj xs, .obj ys, h =>
    have e := eqJObj_of_beq xs ys (by simpa [Json.beq] using h)
    congrArg Json.obj e
  | .null, .bool _, h => by simp [Json.beq] at h
  | .null, .num _, h => by simp [Json.beq] at h
  | .null, .str _, h => by simp [Json.beq] at h
  | .null, .arr _, h => by simp [Json.beq] at h
  | .null, .obj _, h => by simp [Json.beq] at h
  | .bool _, .null, h => by simp [Json.beq] at h
  | .bool _, .num _, h => by simp [Json.beq] at h
  | .bool _, .str _, h => by simp [Json.beq] at h
  | .bool _, .arr _, h => by simp [Json.beq] at h
  | .bool _, .obj _, h => by simp [Json.beq] at h
  | .num _, .null, h => by simp [Json.beq] at h
  | .num _, .bool _, h => by simp [Json.beq] at h
  | .num _, .str _, h => by simp [Json.beq] at h
  | .num _, .arr _, h => by simp [Json.beq] at h
  | .num _, .obj _, h => by simp [Json.beq] at h
  | .str _, .null, h => by simp [Json.beq] at h
  | .str _, .bool _, h => by simp [Json.beq] at h
  | .str _, .num _, h => by simp [Json.beq] at h
  | .str _, .arr _, h => by simp [Json.beq] at h
  | .str _, .obj _, h => by simp [Json.beq] at h
  | .arr _, .null, h => by simp [Json.beq] at h
  | .arr _, .bool _, h => by simp [Json.beq] at h
  | .arr _, .num _, h => by simp [Json.beq] at h
  | .arr _, .str _, h => by simp [Json.beq] at h
  | .arr _, .obj _, h => by simp [Json.beq] at h
  | .obj _, .null, h => by simp [Json.beq] at h
  | .obj _, .bool _, h => by simp [Json.beq] at h
  | .obj _, .num _, h => by simp [Json.beq] at h
  | .obj _, .str _, h => by simp [Json.beq] at h
  | .obj _, .arr _, h => by simp [Json.beq] at h

/-- Soundness for the array case. -/
theorem eqJList_of_beq : ∀ xs ys : List Json, beqJList xs ys = true → xs = ys
  | [], [], _ => rfl
  | [], _ :: _, h => by simp [beqJList] at h
  | _ :: _, [], h => by simp [beqJList] at h
  | x :: xs, y :: ys, h =>
    have hp : Json.beq x y = true ∧ beqJList xs ys = true := by
      simpa [beqJList, Bool.and_eq_true] using h
    have e1 := Json.eq_of_beq x y hp.1
    have e2 := eqJList_of_beq xs ys hp.2
    by rw [e1, e2]

/-- Soundness for the object case. -/
theorem eqJObj_of_beq : ∀ xs ys : List (String × Json), beqJObj xs ys = true → xs = ys
  | [], [], _ => rfl
  | [], _ :: _, h => by simp [beqJObj] at h
  | _ :: _, [], h => by simp [beqJObj] at h
  | (ka, va) :: ps, (kb, vb) :: qs, h =>
    have hp : (ka = kb ∧ Json.beq va vb = true) ∧ beqJObj ps qs = true := by
      simpa [beqJObj, Bool.and_eq_true] using h
    have e1 := hp.1.1
    have e2 := Json.eq_of_beq va vb hp.1.2
    have e3 := eqJObj_of_beq ps qs hp.2
    by rw [e1, e2, e3]
end

instance : DecidableEq Json := fun a b =>
  if h : Json.beq a b = true then isTrue (Json.eq_of_beq a b h)
  else isFalse (fun he => h (by rw [he]; exact Json.beq_refl b))

/-- Python runtime exceptions that the embedded fragments can raise. -/
inductive PyErr where
  | keyError : String → PyErr
  | attributeError : String → PyErr
  | typeError : String → PyErr
  | indexError : String → PyErr
  | valueError : String → PyErr
deriving DecidableEq

/-- First-match lookup in an association list; Python dict literals in the
source have pairwise distinct keys, so this models `dict` lookup. -/
def lookupKey (k : String) : List (String × Json) → Option Json
  | [] => none
  | (k₁, v) :: rest => if k₁ = k then some v else lookupKey k rest

/-- Python truthiness of a JSON value (`if result.get("success"):` etc.). -/
def Json.pyTruthy : Json → Bool
  | .null => false
  | .bool b => b
  | .num n => n != 0
  | .str s => s != ""
  | .arr xs => !xs.isEmpty
  | .obj kvs => !kvs.isEmpty

/-- Python `d.get(k)`: `None` when the key is absent; raises
`AttributeError` when the receiver is not a dict. -/
def Json.pyGet (j : Json) (k : String) : Except PyErr Json :=
  match j with
  | .obj kvs => .ok ((lookupKey k kvs).getD .null)
  | _ => .error (.attributeError ("object has no attribute get: " ++ k))

/-- Python string subscription `d[k]`: raises `KeyError` when the key is
absent and `TypeError` when the receiver is not a dict. -/
def Json.pyIndexS (j : Json) (k : String) : Except PyErr Json :=
  match j with
  | .obj kvs =>
    match lookupKey k kvs with
    | some v => .ok v
    | none => .error (.keyError k)
  | _ => .error (.typeError ("indices must not be str: " ++ k))

/-- Python integer subscription `xs[i]` (used as `result["messages"][0]`). -/
def Json.pyIndexN (j : Json) (i : Nat) : Except PyErr Json :=
  match j with
  | .arr xs =>
    match xs.get? i with
    | some v => .ok v
    | none => .error (.indexError "list index out of range")
  | .str s =>
    match s.toList.get? i with
    | some c => .ok (.str (String.singleton c))
    | none => .error (.indexError "string index out of range")
  | .obj _ => .error (.keyError (toString i))
  | _ => .error (.typeError "object is not subscriptable")

/-- Boolean substring test, modelling Python `needle in haystack` on `str`. -/
def strContainsSub (needle hay : String) : Bool :=
  (List.range (hay.length + 1)).any (fun i => needle.toList.isPrefixOf (hay.toList.drop i))

/-- Python membership `k in j`: key test on dicts, element test on lists,
substring test on strings, `TypeError` otherwise. -/
def Json.pyContains (j : Json) (k : String) : Except PyErr Bool :=
  match j with
  | .obj kvs => .ok (lookupKey k kvs).isSome
  | .arr xs => .ok (xs.contains (.str k))
  | .str s => .ok (strContainsSub k s)
  | _ => .error (.typeError "argument is not iterable")

/-- Python iteration `for t in j:` — lists yield elements, dicts yield
keys, strings yield characters; other values are not iterable. -/
def Json.pyIter : Json → Except PyErr (List Json)
  | .arr xs => .ok xs
  | .obj kvs => .ok (kvs.map (fun p => Json.str p.1))
  | .str s => .ok (s.toList.map (fun c => Json.str (String.singleton c)))
  | _ => .error (.typeError "object is not iterable")

mutual
/-- Compact `json.dumps` with Python's default separators.  The model omits
character escaping inside string literals, which the claims never exercise. -/
def Json.dumps : Json → String
  | .null => "null"
  | .bool b => if b then "true" else "false"
  | .num n => toString n
  | .str s => "\"" ++ s ++ "\""
  | .arr xs => "[" ++ dumpsArr xs ++ "]"
  | .obj kvs => "\x7b" ++ dumpsObj kvs ++ "\x7d"

/-- Comma-joined serialization of array elements. -/
def dumpsArr : List Json → String
  | [] => ""
  | [x] => Json.dumps x
  | x :: y :: rest => Json.dumps x ++ ", " ++ dumpsArr (y :: rest)

/-- Comma-joined serialization of object members. -/
def dumpsObj : List (String × Json) → String
  | [] => ""
  | [(k, v)] => "\"" ++ k ++ "\": " ++ Json.dumps v
  | (k, v) :: p :: rest => "\"" ++ k ++ "\": " ++ Json.dumps v ++ ", " ++ dumpsObj (p :: rest)
end

/-- A run of `n` spaces, for the indented serializer. -/
def spaces : Nat → String
  | 0 => ""
  | n + 1 => " " ++ spaces n

mutual
/-- `json.dumps(..., indent=2)`: multi-line serialization at the given
current indentation depth (the call sites use depth 0). -/
def Json.dumpsInd (ind : Nat) : Json → String
  | .null => "null"
  | .bool b => if b then "true" else "false"
  | .num n => toString n
  | .str s => "\"" ++ s ++ "\""
  | .arr [] => "[]"
  | .arr (x :: xs) => "[\n" ++ dumpsIndArr (ind + 2) (x :: xs) ++ "\n" ++ spaces ind ++ "]"
  | .obj [] => "\x7b\x7d"
  | .obj (p :: ps) => "\x7b\n" ++ dumpsIndObj (ind + 2) (p :: ps) ++ "\n" ++ spaces ind ++ "\x7d"

/-- Element lines of an indented array serialization. -/
def dumpsIndArr (ind : Nat) : List Json → String
  | [] => ""
  | [x] => spaces ind ++ Json.dumpsInd ind x
  | x :: y :: rest => spaces ind ++ Json.dumpsInd ind x ++ ",\n" ++ dumpsIndArr ind (y :: rest)

/-- Member lines of an indented object serialization. -/
def dumpsIndObj (ind : Nat) : List (String × Json) → String
  | [] => ""
  | [(k, v)] => spaces ind ++ "\"" ++ k ++ "\": " ++ Json.dumpsInd ind v
  | (k, v) :: p :: rest =>
    spaces ind ++ "\"" ++ k ++ "\": " ++ Json.dumpsInd ind v ++ ",\n" ++ dumpsIndObj ind (p :: rest)
end

/-- Python `str()` applied to a JSON value inside an f-string.  Container
values are approximated by their JSON serialization; the formatting claims
only ever apply this to strings and `None`. -/
def Json.pyStr : Json → String
  | .null => "None"
  | .bool b => if b then "True" else "False"
  | .num n => toString n
  | .str s => s
  | j => Json.dumps j

/-- Python `d.get(k, default)` followed by f-string `str()`, with a string
default (`t.get("status", "N/A")` and friends). -/
def Json.pyGetD (j : Json) (k : String) (d : String) : Except PyErr String :=
  match j with
  | .obj kvs => .ok ((lookupKey k kvs).map Json.pyStr |>.getD d)
  | _ => .error (.attributeError ("object has no attribute get: " ++ k))

/-- A button argument for `create_template`, per the declared input schema
(`type` one of QUICK_REPLY/URL, plus `text` and `url` string properties). -/
structure Button where
  type : String
  text : String
  url : String
deriving DecidableEq

/-- The argument dictionary of a tool invocation.  Each field models one
recognized argument key; `none` models an absent key.  Key order in a
Python dict never affects lookup, so a record is a faithful model. -/
structure Args where
  status : Option String := none
  category : Option String := none
  template_id : Option String := none
  template_name : Option String := none
  name : Option String := none
  language : Option String := none
  header_text : Option String := none
  body_text : Option String := none
  body_examples : Option (List String) := none
  footer_text : Option String := none
  buttons : Option (List Button) := none
  «to» : Option String := none
  message : Option String := none
  body_parameters : Option (List String) := none
  header_parameters : Option (List String) := none
  start_date : Option String := none
  end_date : Option String := none

/-- The empty argument dictionary. -/
def Args.empty : Args := {}

/-- Python truthiness of `arguments.get(k)` for a string-valued key:
true exactly when the key is present with a non-empty string. -/
def truthyS : Option String → Bool
  | none => false
  | some s => s != ""

/-- Python truthiness of `arguments.get(k)` for a list-valued key:
true exactly when the key is present with a non-empty list. -/
def truthyL {α : Type} : Option (List α) → Bool
  | none => false
  | some l => !l.isEmpty

/-- Python `arguments[k]` on a string-valued key: raises `KeyError` when
the key is absent. -/
def reqS (k : String) : Option String → Except PyErr String
  | some s => .ok s
  | none => .error (.keyError k)

/-- Python `arguments[k]` on a list-valued key: raises `KeyError` when the
key is absent. -/
def reqL {α : Type} (k : String) : Option (List α) → Except PyErr (List α)
  | some l => .ok l
  | none => .error (.keyError k)

/-- An outbound HTTP request as issued by `make_request`: GET places the
`data` mapping in the query string (`params=data`), POST in the JSON body
(`json=data`), DELETE in neither.  The fixed bearer-token and content-type
headers are attached uniformly and are not modelled. -/
structure HttpRequest where
  method : String
  url : String
  params : Option Json
  body : Option Json
deriving DecidableEq

/-- The pinned Graph API version (`API_VERSION = "v24.0"`). -/
def API_VERSION : String := "v24.0"

/-- The fixed versioned base URL. -/
def BASE_URL : String := "https://graph.facebook.com/" ++ API_VERSION

/-- Embedding of `make_request(method, endpoint, data)`: the request it
issues.  `client.get` passes `params=data`, `client.post` passes
`json=data`, and `client.delete` passes only `url` and `headers` — the
`data` argument is dropped on the DELETE path.  An unsupported method
raises `ValueError`. -/
def make_request (method endpoint : String) (data : Option Json) : Except PyErr HttpRequest :=
  let url := BASE_URL ++ "/" ++ endpoint
  if method = "GET" then .ok { method := method, url := url, params := data, body := none }
  else if method = "POST" then .ok { method := method, url := url, params := none, body := data }
  else if method = "DELETE" then .ok { method := method, url := url, params := none, body := none }
  else .error (.valueError ("Unsupported method: " ++ method))

/-- The `fields` query value used by the `list_templates` branch. -/
def list_templates_fields : String := "name,status,category,language,components,quality_score"

/-- The request issued by the `list_templates` branch:
`make_request("GET", f"..../message_templates", fields plus limit 50)`. -/
def listTemplatesRequest (wabaId : String) : Except PyErr HttpRequest :=
  make_request "GET" (wabaId ++ "/message_templates")
    (some (.obj [("fields", .str list_templates_fields), ("limit", .num 50)]))

/-- The request issued by the `delete_template` branch:
`make_request("DELETE", f"..../message_templates", with a name entry)`. -/
def deleteTemplateRequest (wabaId templateName : String) : Except PyErr HttpRequest :=
  make_request "DELETE" (wabaId ++ "/message_templates")
    (some (.obj [("name", .str templateName)]))

/-- The request issued by `read_resource` for `whatsapp://templates`:
a GET with a fields selection and limit 50. -/
def templatesResourceRequest (wabaId : String) : Except PyErr HttpRequest :=
  make_request "GET" (wabaId ++ "/message_templates")
    (some (.obj [("fields", .str "name,status,category,language,components"), ("limit", .num 50)]))

/-- The HEADER component built when `header_text` is truthy. -/
def headerComponentJson (h : String) : Json :=
  .obj [("type", .str "HEADER"), ("format", .str "TEXT"), ("text", .str h)]

/-- The BODY component: body text plus the example field, which wraps the
full example list in a singleton list (`"body_text": [arguments["body_examples"]]`). -/
def bodyComponentJson (bt : String) (ex : List String) : Json :=
  .obj [("type", .str "BODY"), ("text", .str bt),
        ("example", .obj [("body_text", .arr [.arr (ex.map Json.str)])])]

/-- The FOOTER component built when `footer_text` is truthy. -/
def footerComponentJson (f : String) : Json :=
  .obj [("type", .str "FOOTER"), ("text", .str f)]

/-- The sub-object appended for a QUICK_REPLY button. -/
def quickReplyJson (b : Button) : Json :=
  .obj [("type", .str "QUICK_REPLY"), ("text", .str b.text)]

/-- The sub-object appended for a URL button. -/
def urlJson (b : Button) : Json :=
  .obj [("type", .str "URL"), ("text", .str b.text), ("url", .str b.url)]

/-- The button loop of the `create_template` branch: QUICK_REPLY and URL
buttons are appended in input order; any other type falls through the
`if`/`elif` chain and is skipped. -/
def buildButtons : List Button → List Json
  | [] => []
  | b :: rest =>
    if b.type = "QUICK_REPLY" then quickReplyJson b :: buildButtons rest
    else if b.type = "URL" then urlJson b :: buildButtons rest
    else buildButtons rest

/-- The BUTTONS component built when the `buttons` argument is truthy. -/
def buttonsComponentJson (bs : List Button) : Json :=
  .obj [("type", .str "BUTTONS"), ("buttons", .arr (buildButtons bs))]

/-- The component assembly of the `create_template` branch: an optional
HEADER, the mandatory BODY (`arguments["body_text"]` and
`arguments["body_examples"]` raise `KeyError` when absent), an optional
FOOTER, then an optional BUTTONS component, appended in that order. -/
def createComponents (a : Args) : Except PyErr (List Json) := do
  let c₀ : List Json :=
    if truthyS a.header_text then [headerComponentJson (a.header_text.getD "")] else []
  let bt ← reqS "body_text" a.body_text
  let ex ← reqL "body_examples" a.body_examples
  let c₁ := c₀ ++ [bodyComponentJson bt ex]
  let c₂ := c₁ ++ (if truthyS a.footer_text then [footerComponentJson (a.footer_text.getD "")] else [])
  let c₃ := c₂ ++ (if truthyL a.buttons then [buttonsComponentJson (a.buttons.getD [])] else [])
  pure c₃

/-- The POST body of the `create_template` branch (name, category,
language defaulting to es_CL, and the assembled components). -/
def createPayload (a : Args) : Except PyErr Json := do
  let comps ← createComponents a
  let nm ← reqS "name" a.name
  let cat ← reqS "category" a.category
  pure (.obj [("name", .str nm), ("category", .str cat),
              ("language", .str (a.language.getD "es_CL")),
              ("components", .arr comps)])

/-- One table row of the `list_templates` output: `t["name"]` is accessed
directly (`KeyError` when absent); category, status and language default
to N/A via `.get`. -/
def templateRow (t : Json) : Except PyErr String := do
  let nm ← t.pyIndexS "name"
  let cat ← t.pyGetD "category" "N/A"
  let st ← t.pyGetD "status" "N/A"
  let lang ← t.pyGetD "language" "N/A"
  pure ("| " ++ nm.pyStr ++ " | " ++ cat ++ " | " ++ st ++ " | " ++ lang ++ " |\n")

/-- Sequential rendering of all table rows. -/
def renderRows : List Json → Except PyErr String
  | [] => .ok ""
  | t :: ts => do
    let row ← templateRow t
    let rest ← renderRows ts
    pure (row ++ rest)

/-- The list comprehension `[t for t in ts if t.get(key) == val]`:
elements whose `key` field equals the string `val` are kept, in order. -/
def pyFilterEq (key val : String) : List Json → Except PyErr (List Json)
  | [] => .ok []
  | t :: ts => do
    let v ← t.pyGet key
    let rest ← pyFilterEq key val ts
    pure (if v = Json.str val then t :: rest else rest)

/-- The in-memory filtering stage of the `list_templates` branch: an
optional status filter followed by an optional category filter, each
applied only when the corresponding argument is truthy. -/
def filterTemplates (a : Args) (ts : List Json) : Except PyErr (List Json) := do
  let ts₁ ← if truthyS a.status then pyFilterEq "status" (a.status.getD "") ts else pure ts
  if truthyS a.category then pyFilterEq "category" (a.category.getD "") ts₁ else pure ts₁

/-- The fixed heading and table header of the `list_templates` output. -/
def listHeader : String :=
  "## WhatsApp Templates\n\n| Name | Category | Status | Language |\n|------|----------|--------|----------|\n"

/-- The `list_templates` branch after the GET request: on a response with
a `data` key, filter and render the table plus the count line; otherwise
return the serialized response prefixed with an error marker. -/
def listTemplatesFormat (a : Args) (result : Json) : Except PyErr (List String) := do
  let hasData ← result.pyContains "data"
  if hasData then
    let d ← result.pyIndexS "data"
    let ts ← d.pyIter
    let ts₂ ← filterTemplates a ts
    let rows ← renderRows ts₂
    pure [listHeader ++ rows ++ "\n**Total: " ++ toString ts₂.length ++ " templates**"]
  else
    pure ["Error: " ++ result.dumps]

/-- The `create_template` branch after the POST request: an `id` key
signals success (status defaults to PENDING, category to
`arguments["category"]`, whose lookup is evaluated eagerly); otherwise the
response is serialized with indent 2 behind an error marker. -/
def createRespFormat (a : Args) (result : Json) : Except PyErr String := do
  let hasId ← result.pyContains "id"
  if hasId then
    let idv ← result.pyIndexS "id"
    let st ← result.pyGetD "status" "PENDING"
    let catDefault ← reqS "category" a.category
    let cat ←
      match result with
      | .obj kvs => Except.ok (((lookupKey "category" kvs).map Json.pyStr).getD catDefault)
      | _ => Except.error (.attributeError "object has no attribute get: category")
    pure ("Template created successfully!\n\n- **ID**: " ++ idv.pyStr ++
          "\n- **Status**: " ++ st ++ "\n- **Category**: " ++ cat)
  else
    pure ("Error creating template: " ++ result.dumpsInd 0)

/-- Rendering of a caught exception, modelling `str(e)` per exception
class (Python renders a `KeyError` as its quoted key). -/
def pyErrText : PyErr → String
  | .keyError k => "\x27" ++ k ++ "\x27"
  | .attributeError m => m
  | .typeError m => m
  | .indexError m => m
  | .valueError m => m

/-- Stand-in for `traceback.format_exc()`; its exact text is runtime
detail the program only ever concatenates after the exception message. -/
def tracebackText : String := "Traceback (most recent call last):\n"

/-- The whole `create_template` branch, including its `try`/`except`:
any embedded exception is caught and rendered as text, so the branch is a
total function into content. -/
def createTemplateBranch (a : Args) (result : Json) : List String :=
  match (do
      let _ ← createPayload a
      createRespFormat a result : Except PyErr String) with
  | .ok msg => [msg]
  | .error e => ["Exception creating template: " ++ pyErrText e ++ "\n" ++ tracebackText]

/-- The `delete_template` branch after the DELETE request: a truthy
`success` key yields the confirmation, anything else the serialized
response behind an error marker. -/
def deleteTemplateFormat (a : Args) (result : Json) : Except PyErr (List String) := do
  let s ← result.pyGet "success"
  if s.pyTruthy then
    let tn ← reqS "template_name" a.template_name
    pure ["Template \x27" ++ tn ++ "\x27 deleted successfully"]
  else
    pure ["Error: " ++ result.dumps]

/-- A message parameter wrapped for the send payload:
`{"type": "text", "text": p}`. -/
def textParamJson (p : String) : Json :=
  .obj [("type", .str "text"), ("text", .str p)]

/-- The components list of the `send_template_message` branch: a header
component when `header_parameters` is truthy, then a body component when
`body_parameters` is truthy, each parameter wrapped by `textParamJson`
in input order. -/
def sendTemplateComponents (a : Args) : List Json :=
  (if truthyL a.header_parameters then
    [Json.obj [("type", .str "header"),
      ("parameters", .arr ((a.header_parameters.getD []).map textParamJson))]]
  else [])
  ++ (if truthyL a.body_parameters then
    [Json.obj [("type", .str "body"),
      ("parameters", .arr ((a.body_parameters.getD []).map textParamJson))]]
  else [])

/-- The POST body of the `send_template_message` branch. -/
def sendTemplatePayload (a : Args) : Except PyErr Json := do
  let comps := sendTemplateComponents a
  let toV ← reqS "to" a.«to»
  let tn ← reqS "template_name" a.template_name
  pure (.obj [("messaging_product", .str "whatsapp"), ("recipient_type", .str "individual"),
    ("to", .str toV), ("type", .str "template"),
    ("template", .obj [("name", .str tn),
      ("language", .obj [("code", .str (a.language.getD "es_CL"))]),
      ("components", .arr comps)])])

/-- The POST body of the `send_text_message` branch. -/
def sendTextPayload (toV message : String) : Json :=
  .obj [("messaging_product", .str "whatsapp"), ("recipient_type", .str "individual"),
    ("to", .str toV), ("type", .str "text"),
    ("text", .obj [("body", .str message)])]

/-- The `send_template_message` branch after the POST request: a
`messages` key yields `result["messages"][0]["id"]` plus the recipient;
otherwise the response is serialized with indent 2 behind an error
marker. -/
def sendMessageFormat (a : Args) (result : Json) : Except PyErr (List String) := do
  let hasMsgs ← result.pyContains "messages"
  if hasMsgs then
    let msgs ← result.pyIndexS "messages"
    let m0 ← msgs.pyIndexN 0
    let mid ← m0.pyIndexS "id"
    let toV ← reqS "to" a.«to»
    pure ["Message sent successfully!\n\n- **Message ID**: " ++ mid.pyStr ++ "\n- **To**: " ++ toV]
  else
    pure ["Error sending message: " ++ result.dumpsInd 0]

/-- The `send_text_message` branch after the POST request (same shape as
the template send, with its own wording). -/
def sendTextFormat (a : Args) (result : Json) : Except PyErr (List String) := do
  let hasMsgs ← result.pyContains "messages"
  if hasMsgs then
    let msgs ← result.pyIndexS "messages"
    let m0 ← msgs.pyIndexN 0
    let mid ← m0.pyIndexS "id"
    let toV ← reqS "to" a.«to»
    pure ["Text message sent!\n\n- **Message ID**: " ++ mid.pyStr ++ "\n- **To**: " ++ toV]
  else
    pure ["Error sending message: " ++ result.dumpsInd 0]

/-- The `get_template` branch: with a truthy `template_id` the response is
returned verbatim (pretty-printed); otherwise the by-name list response is
narrowed to `result["data"][0]` when `data` is present and truthy. -/
def getTemplateBranch (a : Args) (resp : Json) : Except PyErr (List String) := do
  if truthyS a.template_id then
    pure [resp.dumpsInd 0]
  else
    let hasData ← resp.pyContains "data"
    let r ←
      if hasData then do
        let d ← resp.pyIndexS "data"
        if d.pyTruthy then do
          let d₂ ← resp.pyIndexS "data"
          d₂.pyIndexN 0
        else pure resp
      else pure resp
    pure [r.dumpsInd 0]

/-- The `get_account_info` branch: a labeled JSON block. -/
def accountInfoFormat (resp : Json) : List String :=
  ["## WABA Account Info\n\n```json\n" ++ resp.dumpsInd 0 ++ "\n```"]

/-- One itemized entry of the `get_phone_numbers` output. -/
def phoneEntry (p : Json) : Except PyErr String := do
  let dp ← p.pyGet "display_phone_number"
  let vn ← p.pyGet "verified_name"
  let q ← p.pyGetD "quality_rating" "N/A"
  let lim ← p.pyGetD "messaging_limit_tier" "N/A"
  let idv ← p.pyGet "id"
  pure ("- **" ++ dp.pyStr ++ "** (" ++ vn.pyStr ++ ")\n  - Quality: " ++ q ++
        "\n  - Limit: " ++ lim ++ "\n  - ID: " ++ idv.pyStr ++ "\n\n")

/-- Sequential rendering of all phone entries. -/
def renderPhones : List Json → Except PyErr String
  | [] => .ok ""
  | p :: ps => do
    let e ← phoneEntry p
    let rest ← renderPhones ps
    pure (e ++ rest)

/-- The `get_phone_numbers` branch after the GET request. -/
def phoneNumbersFormat (resp : Json) : Except PyErr (List String) := do
  let hasData ← resp.pyContains "data"
  if hasData then
    let d ← resp.pyIndexS "data"
    let ps ← d.pyIter
    let body ← renderPhones ps
    pure ["## Phone Numbers\n\n" ++ body]
  else
    pure ["Error: " ++ resp.dumps]

/-- The `get_analytics` branch: a labeled JSON block. -/
def analyticsFormat (resp : Json) : List String :=
  ["## Analytics\n\n```json\n" ++ resp.dumpsInd 0 ++ "\n```"]

/-- The nine tool names of the catalog, in declaration order. -/
def toolNames : List String :=
  ["list_templates", "get_template", "create_template", "delete_template",
   "get_account_info", "get_phone_numbers", "send_template_message",
   "send_text_message", "get_analytics"]

/-- The dispatcher `call_tool(name, arguments)`.  The remote response of
the branch's single request is the oracle input `resp`; each branch first
evaluates the argument accesses its request construction performs, then
formats `resp`.  A name matching no branch falls through every `elif` to
the final unknown-tool return. -/
def callTool (name : String) (a : Args) (resp : Json) : Except PyErr (List String) :=
  if name = "list_templates" then listTemplatesFormat a resp
  else if name = "get_template" then getTemplateBranch a resp
  else if name = "create_template" then .ok (createTemplateBranch a resp)
  else if name = "delete_template" then do
    let _ ← reqS "template_name" a.template_name
    deleteTemplateFormat a resp
  else if name = "get_account_info" then .ok (accountInfoFormat resp)
  else if name = "get_phone_numbers" then phoneNumbersFormat resp
  else if name = "send_template_message" then do
    let _ ← sendTemplatePayload a
    sendMessageFormat a resp
  else if name = "send_text_message" then do
    let toV ← reqS "to" a.«to»
    let msg ← reqS "message" a.message
    let _ := sendTextPayload toV msg
    sendTextFormat a resp
  else if name = "get_analytics" then .ok (analyticsFormat resp)
  else .ok ["Unknown tool: " ++ name]

/-- The `read_resource` handler: both known URIs serialize the response of
their GET request; unknown URIs return an empty JSON object. -/
def read_resource (uri : String) (resp : Json) : String :=
  if uri = "whatsapp://templates" then resp.dumpsInd 0
  else if uri = "whatsapp://account" then resp.dumpsInd 0
  else "\x7b\x7d"

/-- The value of the `type` member of a component object (used to state
ordering properties at the level of component kinds). -/
def componentType (j : Json) : Option Json :=
  match j with
  | .obj kvs => lookupKey "type" kvs
  | _ => none

/-- The value of a named member of a JSON object, read without defaulting. -/
def objField (k : String) : Json → Option Json
  | .obj kvs => lookupKey k kvs
  | _ => none

/-- Whether a JSON value is an object. -/
def Json.isObj : Json → Bool
  | .obj _ => true
  | _ => false

/-- The first element of a JSON array, when there is one. -/
def jsonFirst : Json → Option Json
  | .arr (x :: _) => some x
  | _ => none

/-- Decoding of a list of JSON strings back into Lean strings. -/
def decodeStrList : List Json → Option (List String)
  | [] => some []
  | .str s :: rest => (decodeStrList rest).map (fun l => s :: l)
  | _ => none

/-- Decoding of a JSON array of strings back into a Lean string list. -/
def strListOfJson : Json → Option (List String)
  | .arr xs => decodeStrList xs
  | _ => none

/-- The per-button mapping stated by the spec: QUICK_REPLY and URL buttons
map to their sub-objects, any other type maps to nothing. -/
def buttonMapSpec (b : Button) : Option Json :=
  if b.type = "QUICK_REPLY" then some (quickReplyJson b)
  else if b.type = "URL" then some (urlJson b)
  else none

/-- Decoding a mapped string list recovers the original list. -/
theorem decodeStrList_map_str (E : List String) : decodeStrList (E.map Json.str) = some E := by
  induction E with
  | nil => rfl
  | cons s rest ih => simp [decodeStrList, ih]

/-- A present non-empty string argument is truthy. -/
theorem truthyS_some_ne {s : String} (h : s ≠ "") : truthyS (some s) = true := by
  simp [truthyS, bne_iff_ne, h]

/-- On a list of objects, the comprehension filter neither raises nor
reorders: it keeps exactly the entries whose field equals the value. -/
theorem pyFilterEq_objs (key v : String) (ts : List Json) (h : ∀ t ∈ ts, t.isObj = true) :
  pyFilterEq key v ts = .ok (ts.filter (fun t => decide (objField key t = some (Json.str v)))) := by
  induction ts with
  | nil => rfl
  | cons t rest ih =>
    have ht : t.isObj = true := h t (by simp)
    have hrest : ∀ x ∈ rest, x.isObj = true := fun x hx => h x (by simp [hx])
    cases t with
    | obj kvs =>
      simp only [pyFilterEq, Json.pyGet, ih hrest]
      cases hl : lookupKey key kvs with
      | none => simp [objField, hl, List.filter_cons, Bind.bind, Except.bind, Pure.pure,
          Except.pure, Option.getD]
      | some x =>
        by_cases hx : x = Json.str v
        · simp [objField, hl, hx, List.filter_cons, Bind.bind, Except.bind, Pure.pure,
            Except.pure, Option.getD]
        · simp [objField, hl, hx, List.filter_cons, Bind.bind, Except.bind, Pure.pure,
            Except.pure, Option.getD]
    | null => simp [Json.isObj] at ht
    | bool b => simp [Json.isObj] at ht
    | num n => simp [Json.isObj] at ht
    | str s => simp [Json.isObj] at ht
    | arr xs => simp [Json.isObj] at ht

/-- Truthiness of a list argument coincides with non-emptiness of its
value defaulted to the empty list. -/
theorem truthyL_getD {α : Type} (o : Option (List α)) : truthyL o = !(o.getD []).isEmpty := by
  cases o <;> simp [truthyL]

/-- Claim C1: the spec says the delete-by-name DELETE request carries
name=template_name as a query parameter; the code drops the mapping on the
DELETE path of make_request, so the outbound request has no query
parameters and no body for every template name. -/
theorem deleteTemplate_request_drops_name (wabaId templateName : String) :
  deleteTemplateRequest wabaId templateName =
    .ok { method := "DELETE", url := BASE_URL ++ "/" ++ wabaId ++ "/message_templates",
          params := none, body := none } := rfl

/-- Claim C2, counterexample: the list formatter raises a KeyError on the
malformed success-shaped response whose data entry lacks a name, so not
every formatter produces textual output on every malformed response. -/
theorem listTemplates_malformed_raises :
  listTemplatesFormat Args.empty (Json.obj [("data", Json.arr [Json.obj []])]) =
    .error (.keyError "name") := rfl

/-- Claim C2, amended: for every object-shaped remote response lacking the
success-indicating key of the invoked operation (data for list, id for
create, success for delete, messages for send), the corresponding
formatter returns a textual error containing the serialized response and
does not raise. -/
theorem formatters_error_on_missing_key (a : Args) (kvs : List (String × Json)) :
  (lookupKey "data" kvs = none →
    listTemplatesFormat a (.obj kvs) = .ok ["Error: " ++ (Json.obj kvs).dumps]) ∧
  (lookupKey "id" kvs = none →
    createRespFormat a (.obj kvs) = .ok ("Error creating template: " ++ (Json.obj kvs).dumpsInd 0)) ∧
  (lookupKey "success" kvs = none →
    deleteTemplateFormat a (.obj kvs) = .ok ["Error: " ++ (Json.obj kvs).dumps]) ∧
  (lookupKey "messages" kvs = none →
    sendMessageFormat a (.obj kvs) = .ok ["Error sending message: " ++ (Json.obj kvs).dumpsInd 0]) := by
  refine ⟨fun h => ?_, fun h => ?_, fun h => ?_, fun h => ?_⟩
  · simp [listTemplatesFormat, Json.pyContains, h, Bind.bind, Except.bind, Pure.pure, Except.pure]
  · simp [createRespFormat, Json.pyContains, h, Bind.bind, Except.bind, Pure.pure, Except.pure]
  · simp [deleteTemplateFormat, Json.pyGet, Json.pyTruthy, h, Bind.bind, Except.bind, Pure.pure,
      Except.pure, Option.getD]
  · simp [sendMessageFormat, Json.pyContains, h, Bind.bind, Except.bind, Pure.pure, Except.pure]

/-- Claim C2, witness: the four formatters on a concrete error-shaped
response lacking all four success keys. -/
theorem formatters_error_on_missing_key_witness :
  listTemplatesFormat Args.empty (Json.obj [("error", Json.str "boom")]) =
    .ok ["Error: " ++ (Json.obj [("error", Json.str "boom")]).dumps] ∧
  createRespFormat Args.empty (Json.obj [("error", Json.str "boom")]) =
    .ok ("Error creating template: " ++ (Json.obj [("error", Json.str "boom")]).dumpsInd 0) ∧
  deleteTemplateFormat Args.empty (Json.obj [("error", Json.str "boom")]) =
    .ok ["Error: " ++ (Json.obj [("error", Json.str "boom")]).dumps] ∧
  sendMessageFormat Args.empty (Json.obj [("error", Json.str "boom")]) =
    .ok ["Error sending message: " ++ (Json.obj [("error", Json.str "boom")]).dumpsInd 0] := by
  have h := formatters_error_on_missing_key Args.empty [("error", Json.str "boom")]
  exact ⟨h.1 rfl, h.2.1 rfl, h.2.2.1 rfl, h.2.2.2 rfl⟩

/-- Claim C3, counterexample: an empty header_text is given yet no HEADER
component is emitted, because the code tests Python truthiness rather than
key presence; the components are exactly the BODY component. -/
theorem createComponents_header_given_but_dropped :
  ({ header_text := some "", body_text := some "x", body_examples := some [] } : Args).header_text
      = some "" ∧
  createComponents { header_text := some "", body_text := some "x", body_examples := some [] } =
    .ok [bodyComponentJson "x" []] := ⟨rfl, rfl⟩

/-- Claim C3, amended: when body_text and body_examples are given, the
component kinds are, in order, HEADER (present iff a non-empty header_text
is given), BODY (always), FOOTER (present iff a non-empty footer_text is
given), BUTTONS (present iff a non-empty buttons list is given); argument
key order cannot matter since arguments are a keyed record. -/
theorem createComponents_order (a : Args) (bt : String) (ex : List String)
    (hb : a.body_text = some bt) (he : a.body_examples = some ex) :
  ∃ cs, createComponents a = .ok cs ∧
    cs.map componentType =
      (if truthyS a.header_text then [some (Json.str "HEADER")] else [])
      ++ [some (Json.str "BODY")]
      ++ (if truthyS a.footer_text then [some (Json.str "FOOTER")] else [])
      ++ (if truthyL a.buttons then [some (Json.str "BUTTONS")] else []) := by
  have h : createComponents a = .ok (
      (if truthyS a.header_text then [headerComponentJson (a.header_text.getD "")] else [])
      ++ [bodyComponentJson bt ex]
      ++ (if truthyS a.footer_text then [footerComponentJson (a.footer_text.getD "")] else [])
      ++ (if truthyL a.buttons then [buttonsComponentJson (a.buttons.getD [])] else [])) := by
    simp [createComponents, hb, he, reqS, reqL, Bind.bind, Except.bind, Pure.pure, Except.pure,
      List.append_assoc]
  refine ⟨_, h, ?_⟩
  by_cases h1 : truthyS a.header_text <;> by_cases h2 : truthyS a.footer_text <;>
    by_cases h3 : truthyL a.buttons <;>
    simp [h1, h2, h3, componentType, headerComponentJson, bodyComponentJson,
      footerComponentJson, buttonsComponentJson, lookupKey]

/-- Claim C3, witness: concrete arguments with header, body and buttons
yield the kinds HEADER, BODY, BUTTONS in order. -/
theorem createComponents_order_witness :
  ∃ cs, createComponents
      { header_text := some "H", body_text := some "B", body_examples := some ["e"],
        buttons := some [Button.mk "QUICK_REPLY" "t" "u"] } = .ok cs ∧
    cs.map componentType =
      [some (Json.str "HEADER"), some (Json.str "BODY"), some (Json.str "BUTTONS")] := by
  obtain ⟨cs, h1, h2⟩ := createComponents_order
    { header_text := some "H", body_text := some "B", body_examples := some ["e"],
      buttons := some [Button.mk "QUICK_REPLY" "t" "u"] } "B" ["e"] rfl rfl
  exact ⟨cs, h1, h2.trans (by rfl)⟩

/-- Claim C4: the BODY component example field wraps the example list E in
a singleton list, and extracting the first element of the wrapped value
and decoding it yields E back exactly. -/
theorem body_example_wraps_and_roundtrips (bt : String) (E : List String) :
  objField "example" (bodyComponentJson bt E) =
    some (Json.obj [("body_text", Json.arr [Json.arr (E.map Json.str)])]) ∧
  (objField "body_text" (Json.obj [("body_text", Json.arr [Json.arr (E.map Json.str)])])).bind
    jsonFirst = some (Json.arr (E.map Json.str)) ∧
  strListOfJson (Json.arr (E.map Json.str)) = some E :=
  ⟨rfl, rfl, decodeStrList_map_str E⟩

/-- Claim C5: on a data array of objects, filtering with a status S and a
category C returns exactly the entries whose status field equals S and
whose category field equals C, and filtering with neither argument returns
the array unchanged. -/
theorem list_filter_conj_and_identity (S C : String) (data : List Json)
    (hS : S ≠ "") (hC : C ≠ "") (hobj : ∀ t ∈ data, t.isObj = true) :
  filterTemplates { status := some S, category := some C } data =
    .ok (data.filter (fun t =>
      decide (objField "status" t = some (Json.str S)) &&
      decide (objField "category" t = some (Json.str C)))) ∧
  filterTemplates { status := none, category := none } data = .ok data := by
  constructor
  · have h1 := pyFilterEq_objs "status" S data hobj
    have hobj2 : ∀ x ∈ data.filter (fun t => decide (objField "status" t = some (Json.str S))),
        x.isObj = true := fun x hx => hobj x (List.mem_of_mem_filter hx)
    have h2 := pyFilterEq_objs "category" C _ hobj2
    simp only [filterTemplates, truthyS_some_ne hS, truthyS_some_ne hC, Option.getD_some,
      if_pos, h1, Bind.bind, Except.bind, h2]
    rw [List.filter_filter]
    exact congrArg Except.ok (List.filter_congr (fun x _ => Bool.and_comm _ _))
  · rfl

/-- Claim C5, witness: a two-entry data array where exactly one entry
matches both filters, and the identity case on the same array. -/
theorem list_filter_conj_and_identity_witness :
  filterTemplates { status := some "APPROVED", category := some "UTILITY" }
      [Json.obj [("status", Json.str "APPROVED"), ("category", Json.str "UTILITY")],
       Json.obj [("status", Json.str "PENDING"), ("category", Json.str "UTILITY")]] =
    .ok [Json.obj [("status", Json.str "APPROVED"), ("category", Json.str "UTILITY")]] ∧
  filterTemplates { status := none, category := none }
      [Json.obj [("status", Json.str "APPROVED"), ("category", Json.str "UTILITY")],
       Json.obj [("status", Json.str "PENDING"), ("category", Json.str "UTILITY")]] =
    .ok [Json.obj [("status", Json.str "APPROVED"), ("category", Json.str "UTILITY")],
         Json.obj [("status", Json.str "PENDING"), ("category", Json.str "UTILITY")]] := by
  have h := list_filter_conj_and_identity "APPROVED" "UTILITY"
    [Json.obj [("status", Json.str "APPROVED"), ("category", Json.str "UTILITY")],
     Json.obj [("status", Json.str "PENDING"), ("category", Json.str "UTILITY")]]
    (by decide) (by decide) (by decide)
  exact ⟨h.1.trans (by rfl), h.2⟩

/-- Claim C6: the send payload components are a header-type component
exactly when header_parameters is non-empty, followed by a body-type
component exactly when body_parameters is non-empty, each wrapping its
parameters in order as type-text objects; both lists empty gives the empty
components list. -/
theorem send_components_shape (a : Args) :
  sendTemplateComponents a =
    (if (a.header_parameters.getD []).isEmpty then []
     else [Json.obj [("type", .str "header"),
       ("parameters", .arr ((a.header_parameters.getD []).map textParamJson))]])
    ++ (if (a.body_parameters.getD []).isEmpty then []
     else [Json.obj [("type", .str "body"),
       ("parameters", .arr ((a.body_parameters.getD []).map textParamJson))]]) := by
  simp only [sendTemplateComponents, truthyL_getD]
  cases h1 : (a.header_parameters.getD []).isEmpty <;>
    cases h2 : (a.body_parameters.getD []).isEmpty <;> simp

/-- Claim C7: the send_text_message POST body is exactly the fixed
envelope around the recipient and the literal text, and at the scenario
input it equals the scenario value of the spec. -/
theorem send_text_payload_exact (toV message : String) :
  sendTextPayload toV message =
    Json.obj [("messaging_product", Json.str "whatsapp"), ("recipient_type", Json.str "individual"),
      ("to", Json.str toV), ("type", Json.str "text"),
      ("text", Json.obj [("body", Json.str message)])] ∧
  sendTextPayload "56912345678" "Hi" =
    Json.obj [("messaging_product", Json.str "whatsapp"), ("recipient_type", Json.str "individual"),
      ("to", Json.str "56912345678"), ("type", Json.str "text"),
      ("text", Json.obj [("body", Json.str "Hi")])] := ⟨rfl, rfl⟩

/-- Claim C8: the button loop maps QUICK_REPLY and URL buttons through
their sub-objects in input order and silently skips buttons of any other
type, as witnessed by the filterMap characterization together with the
skip of a concrete unrecognized type at the head of any list. -/
theorem buildButtons_maps_and_skips (bs : List Button) :
  buildButtons bs = bs.filterMap buttonMapSpec ∧
  buildButtons ({ type := "PHONE_NUMBER", text := "call", url := "u" } :: bs) = buildButtons bs := by
  constructor
  · induction bs with
    | nil => rfl
    | cons b rest ih =>
      simp only [buildButtons, List.filterMap_cons, buttonMapSpec]
      split_ifs <;> simp [ih]
  · simp [buildButtons]

/-- Claim C9: for every tool name outside the nine-operation catalog the
dispatcher returns the plain unknown-tool notice naming the tool, and
raises no exception. -/
theorem unknown_tool_notice (name : String) (a : Args) (resp : Json) (h : name ∉ toolNames) :
  callTool name a resp = .ok ["Unknown tool: " ++ name] := by
  simp only [toolNames, List.mem_cons, List.not_mem_nil, or_false, not_or] at h
  obtain ⟨h1, h2, h3, h4, h5, h6, h7, h8, h9⟩ := h
  simp [callTool, h1, h2, h3, h4, h5, h6, h7, h8, h9]

/-- Claim C9, witness: the unknown tool name foo. -/
theorem unknown_tool_notice_witness :
  "foo" ∉ toolNames ∧ callTool "foo" Args.empty Json.null = .ok ["Unknown tool: foo"] :=
  ⟨by decide, unknown_tool_notice "foo" Args.empty Json.null (by decide)⟩

/-- Claim C10: both the list_templates GET request and the templates
resource read carry a fixed limit of 50 in their query parameters. -/
theorem template_fetch_limit_50 (wabaId : String) :
  (∃ q, listTemplatesRequest wabaId = .ok
      { method := "GET", url := BASE_URL ++ "/" ++ wabaId ++ "/message_templates",
        params := some (Json.obj q), body := none } ∧
    lookupKey "limit" q = some (Json.num 50)) ∧
  (∃ q, templatesResourceRequest wabaId = .ok
      { method := "GET", url := BASE_URL ++ "/" ++ wabaId ++ "/message_templates",
        params := some (Json.obj q), body := none } ∧
    lookupKey "limit" q = some (Json.num 50)) :=
  ⟨⟨[("fields", .str list_templates_fields), ("limit", .num 50)], rfl, rfl⟩,
   ⟨[("fields", .str "name,status,category,language,components"), ("limit", .num 50)], rfl, rfl⟩⟩
